import Mathlib

/-!
# Verification of the AutowareAuto `MultiObjectTracker` detection/vision pipeline

Shallow embedding of `src/perception/tracking/src/multi_object_tracker.cpp`.

The embedding is generic over
* `K`, a linear ordered field standing for the `double` scalars of the source
  (the real-number model; the intended instantiation is `ℝ`, and executable
  witnesses use `ℚ`),
* `T`, the `TrackedObject` type (its internals live outside this translation
  unit; the orchestrator only calls the operations bundled in `TrackOps`),
* `M`, the serialized per-track message type (`TrackedObject::msg()` result),
* `C`, the classification payload type of a classified ROI.

Mutation of `m_objects` / `m_last_update` is modelled by explicit state
passing; the C++ indexing `v[i]` (undefined behaviour when out of bounds) is
modelled by `Option`-returning indexing, so a call that would index out of
bounds evaluates to `none`.
-/

namespace Tracking

/-- geometry_msgs/Quaternion: x, y, z vector part and w scalar part. -/
structure Quaternion (K : Type) where
  x : K
  y : K
  z : K
  w : K
deriving DecidableEq

/-- The square root function and the two precomputed cosine constants used by
`is_gravity_aligned`: `cosHalfAngleThresh` stands for `std::cos(0.5 * kAngleThresh)`
and `cosAxisTiltThresh` for `std::cos(kAxisTiltThresh)` (both thresholds 0.1 rad
in the source).  Passing them explicitly keeps the pipeline computable over `ℚ`
while the faithful instantiation over `ℝ` uses `Real.sqrt`, `Real.cos (0.5 * 0.1)`
and `Real.cos 0.1`. -/
structure GeomConsts (K : Type) where
  sqrt : K → K
  cosHalfAngleThresh : K
  cosAxisTiltThresh : K

variable {K : Type} [LinearOrderedField K]

/-- `is_gravity_aligned` from the anonymous namespace of
`multi_object_tracker.cpp`: accept if the rotation angle is small
(`w ≥ cos(kAngleThresh / 2)`), otherwise accept only when the rotation axis is
close to the z axis (`|z| / ‖(x,y,z)‖ ≥ cos(kAxisTiltThresh)`). -/
def is_gravity_aligned (g : GeomConsts K) (quat : Quaternion K) : Bool :=
  if quat.w < g.cosHalfAngleThresh then
    let u_z : K := |quat.z| / g.sqrt (quat.x * quat.x + quat.y * quat.y + quat.z * quat.z)
    if u_z < g.cosAxisTiltThresh then false else true
  else true

/-- geometry_msgs/Point (used for centroids and translations). -/
structure Point (K : Type) where
  x : K
  y : K
  z : K
deriving DecidableEq

/-- geometry_msgs/Point32 (polygon vertices). -/
structure Point32 (K : Type) where
  x : K
  y : K
  z : K
deriving DecidableEq

/-- geometry_msgs/Polygon. -/
structure Polygon (K : Type) where
  points : List (Point32 K)
deriving DecidableEq

/-- autoware_auto_msgs Shape: we keep the polygon, the only part the
orchestrator touches. -/
structure Shape (K : Type) where
  polygon : Polygon K
deriving DecidableEq

/-- geometry_msgs/Vector3. -/
structure Vector3 (K : Type) where
  x : K
  y : K
  z : K
deriving DecidableEq

/-- geometry_msgs/Twist (only the linear part is read by the tracker). -/
structure Twist (K : Type) where
  linear : Vector3 K
deriving DecidableEq

/-- geometry_msgs/TwistWithCovariance (covariance unused by the tracker). -/
structure TwistWithCovariance (K : Type) where
  twist : Twist K
deriving DecidableEq

/-- A 3×3 matrix with explicit entries, row major, standing for
`Eigen::Matrix3d` and for the 9-entry row-major `position_covariance` array. -/
structure Mat3 (K : Type) where
  m00 : K
  m01 : K
  m02 : K
  m10 : K
  m11 : K
  m12 : K
  m20 : K
  m21 : K
  m22 : K
deriving DecidableEq

/-- Matrix product. -/
def Mat3.mul (A B : Mat3 K) : Mat3 K :=
  ⟨A.m00 * B.m00 + A.m01 * B.m10 + A.m02 * B.m20,
   A.m00 * B.m01 + A.m01 * B.m11 + A.m02 * B.m21,
   A.m00 * B.m02 + A.m01 * B.m12 + A.m02 * B.m22,
   A.m10 * B.m00 + A.m11 * B.m10 + A.m12 * B.m20,
   A.m10 * B.m01 + A.m11 * B.m11 + A.m12 * B.m21,
   A.m10 * B.m02 + A.m11 * B.m12 + A.m12 * B.m22,
   A.m20 * B.m00 + A.m21 * B.m10 + A.m22 * B.m20,
   A.m20 * B.m01 + A.m21 * B.m11 + A.m22 * B.m21,
   A.m20 * B.m02 + A.m21 * B.m12 + A.m22 * B.m22⟩

/-- Matrix transpose. -/
def Mat3.transpose (A : Mat3 K) : Mat3 K :=
  ⟨A.m00, A.m10, A.m20, A.m01, A.m11, A.m21, A.m02, A.m12, A.m22⟩

/-- Matrix–vector product. -/
def Mat3.mulVec (A : Mat3 K) (v : Vector3 K) : Vector3 K :=
  ⟨A.m00 * v.x + A.m01 * v.y + A.m02 * v.z,
   A.m10 * v.x + A.m11 * v.y + A.m12 * v.z,
   A.m20 * v.x + A.m21 * v.y + A.m22 * v.z⟩

/-- The rotation matrix of a unit quaternion, as computed by
`Eigen::Quaterniond::toRotationMatrix` (used through `tf2::fromMsg` and, for
the polygon path, `tf2::doTransform` with the same odometry rotation). -/
def quatToRot (q : Quaternion K) : Mat3 K :=
  ⟨1 - 2 * (q.y * q.y + q.z * q.z), 2 * (q.x * q.y - q.z * q.w), 2 * (q.x * q.z + q.y * q.w),
   2 * (q.x * q.y + q.z * q.w), 1 - 2 * (q.x * q.x + q.z * q.z), 2 * (q.y * q.z - q.x * q.w),
   2 * (q.x * q.z - q.y * q.w), 2 * (q.y * q.z + q.x * q.w), 1 - 2 * (q.x * q.x + q.y * q.y)⟩

/-- autoware_auto_msgs DetectedObjectKinematics: centroid, optional position
covariance guarded by `has_position_covariance`, optional twist guarded by
`has_twist`. -/
structure DetectedObjectKinematics (K : Type) where
  centroid_position : Point K
  has_position_covariance : Bool
  position_covariance : Mat3 K
  has_twist : Bool
  twist : TwistWithCovariance K
deriving DecidableEq

/-- autoware_auto_msgs DetectedObject (the fields the orchestrator touches). -/
structure DetectedObject (K : Type) where
  kinematics : DetectedObjectKinematics K
  shape : Shape K
deriving DecidableEq

/-- std_msgs/Header: `time_utils::from_message` turns the stamp into a signed
time value, modelled as `ℤ`. -/
structure Header where
  stamp : ℤ
  frame_id : String
deriving DecidableEq

/-- autoware_auto_msgs DetectedObjects (`DetectedObjectsMsg` in the source). -/
structure DetectedObjectsMsg (K : Type) where
  header : Header
  objects : List (DetectedObject K)
deriving DecidableEq

/-- geometry_msgs/Pose. -/
structure PoseMsg (K : Type) where
  position : Point K
  orientation : Quaternion K
deriving DecidableEq

/-- geometry_msgs/PoseWithCovariance (covariance unused by the tracker). -/
structure PoseWithCovariance (K : Type) where
  pose : PoseMsg K
deriving DecidableEq

/-- nav_msgs/Odometry (the fields the tracker reads). -/
structure Odometry (K : Type) where
  header : Header
  child_frame_id : String
  pose : PoseWithCovariance K
  twist : TwistWithCovariance K
deriving DecidableEq

/-- geometry_msgs/Transform, the camera-from-track transform of the vision
path; the orchestrator only forwards it to the vision associator. -/
structure TransformMsg (K : Type) where
  translation : Vector3 K
  rotation : Quaternion K
deriving DecidableEq

/-- A classified region of interest; the orchestrator reads only its
classification payload. -/
structure ClassifiedRoi (C : Type) where
  classifications : C
deriving DecidableEq

/-- autoware_auto_msgs ClassifiedRoiArray (`ClassifiedRoiArrayMsg`). -/
structure ClassifiedRoiArrayMsg (C : Type) where
  rois : List (ClassifiedRoi C)
deriving DecidableEq

/-- The result of an associator's `assign`: one entry per track mapping it to a
detection index or the `UNASSIGNED` sentinel, the unassigned track and
detection index sets, and the shape-interpretation error flag. -/
structure AssociatorResult where
  track_assignments : List ℕ
  unassigned_track_indices : List ℕ
  unassigned_detection_indices : List ℕ
  had_errors : Bool
deriving DecidableEq

/-- `AssociatorResult::UNASSIGNED = std::numeric_limits<std::size_t>::max()`. -/
def AssociatorResult.UNASSIGNED : ℕ := 18446744073709551615

/-- `TrackerUpdateStatus` of the source, exhaustively. -/
inductive TrackerUpdateStatus where
  | Ok
  | WentBackInTime
  | DetectionFrameMismatch
  | TrackerFrameMismatch
  | FrameNotGravityAligned
  | InvalidShape
deriving DecidableEq

/-- The serialized track array built by `convert_to_msg`. -/
structure TrackedObjectsMsg (M : Type) where
  stamp : ℤ
  frame_id : String
  objects : List M
deriving DecidableEq

/-- `TrackerUpdateResult`: a status, and the serialized tracks only when the
pipeline ran to completion (`std::unique_ptr`, `none` when never set). -/
structure TrackerUpdateResult (M : Type) where
  status : TrackerUpdateStatus
  objects : Option (TrackedObjectsMsg M)
deriving DecidableEq

/-- One batch handed to the `TrackCreator` accumulation buffer by
`add_objects`: either a detection batch or an ROI batch, each with its
association result. -/
inductive CreatorInput (K C : Type) where
  | detections : DetectedObjectsMsg K → AssociatorResult → CreatorInput K C
  | rois : ClassifiedRoiArrayMsg C → AssociatorResult → CreatorInput K C
deriving DecidableEq

/-- `MultiObjectTrackerOptions`: the configuration fields the orchestrator
reads (tracking frame and the two pruning thresholds). -/
structure MultiObjectTrackerOptions where
  frame : String
  pruning_time_threshold : ℤ
  pruning_ticks_threshold : ℕ
deriving DecidableEq

/-- The mutable state of a `MultiObjectTracker`: the live track collection
`m_objects`, the `m_last_update` timestamp, and the `TrackCreator`'s
accumulation buffer. -/
structure MultiObjectTracker (K T C : Type) where
  options : MultiObjectTrackerOptions
  objects : List T
  last_update : ℤ
  creator_buffer : List (CreatorInput K C)
deriving DecidableEq

/-- The operations the orchestrator invokes on a `TrackedObject`; the class
itself lives outside this translation unit, so the pipeline is generic over
them. -/
structure TrackOps (K T M C : Type) where
  predict : T → ℤ → T
  update : T → DetectedObject K → T
  updateClassification : T → C → T
  no_update : T → T
  should_be_removed : T → ℤ → ℕ → Bool
  msg : T → M

/-- The external collaborators of the orchestrator: the track operations, the
two associators' `assign`, and the `TrackCreator`'s spawning step
(`create_tracks` consumes the whole accumulation buffer). -/
structure Collaborators (K T M C : Type) where
  ops : TrackOps K T M C
  assign : DetectedObjectsMsg K → List T → AssociatorResult
  visionAssign : ClassifiedRoiArrayMsg C → List T → TransformMsg K → AssociatorResult
  create_tracks : List (CreatorInput K C) → List T

/-- Index-aware traversal with an explicit starting index; `none` as soon as
the body fails. -/
def mapIdxOptionAux {α β : Type} (f : ℕ → α → Option β) : ℕ → List α → Option (List β)
  | _, [] => some []
  | i, a :: as => do
    let b ← f i a
    let bs ← mapIdxOptionAux f (i + 1) as
    pure (b :: bs)

/-- Index-aware traversal from index 0. -/
def mapIdxOption {α β : Type} (f : ℕ → α → Option β) (l : List α) : Option (List β) :=
  mapIdxOptionAux f 0 l

/-- In-place update of the element at index `i`, modelling `v[i] = f(v[i])`;
`none` when `i` is out of bounds (undefined behaviour in the source). -/
def modifyIdx? {α : Type} : List α → ℕ → (α → α) → Option (List α)
  | [], _, _ => none
  | a :: as, 0, f => some (f a :: as)
  | a :: as, n + 1, f => (modifyIdx? as n f).map (a :: ·)

/-- The first loop of the update pipeline (lines 119–126): for every track
index, read its assignment; skip `UNASSIGNED`, otherwise update the track with
the detection at the assigned index. -/
def applyAssignments {T M C : Type} (ops : TrackOps K T M C) (association : AssociatorResult)
    (detections : DetectedObjectsMsg K) (objects : List T) : Option (List T) :=
  mapIdxOption (fun track_idx object => do
    let detection_idx ← association.track_assignments[track_idx]?
    if detection_idx = AssociatorResult.UNASSIGNED then
      pure object
    else do
      let detection ← detections.objects[detection_idx]?
      pure (ops.update object detection)) objects

/-- The second loop of the update pipeline (lines 127–129): every unassigned
track decays via `no_update`. -/
def applyNoUpdates {T M C : Type} (ops : TrackOps K T M C) (association : AssociatorResult)
    (objects : List T) : Option (List T) :=
  association.unassigned_track_indices.foldl
    (fun acc track_idx => do
      let objs ← acc
      modifyIdx? objs track_idx ops.no_update)
    (some objects)

/-- A polygon vertex under the rigid transform (`tf2::doTransform`). -/
def transformPoint32 (R : Mat3 K) (t : Point K) (p : Point32 K) : Point32 K :=
  ⟨R.m00 * p.x + R.m01 * p.y + R.m02 * p.z + t.x,
   R.m10 * p.x + R.m11 * p.y + R.m12 * p.z + t.y,
   R.m20 * p.x + R.m21 * p.y + R.m22 * p.z + t.z⟩

/-- The centroid under the rigid transform (`tf__tracking__detection * centroid`). -/
def transformPoint (R : Mat3 K) (t : Point K) (p : Point K) : Point K :=
  ⟨R.m00 * p.x + R.m01 * p.y + R.m02 * p.z + t.x,
   R.m10 * p.x + R.m11 * p.y + R.m12 * p.z + t.y,
   R.m20 * p.x + R.m21 * p.y + R.m22 * p.z + t.z⟩

/-- The loop body of `MultiObjectTracker::transform` for one detection:
transform the shape polygon and the centroid by the rigid transform, rotate
the position covariance by `R · cov · Rᵗ` when present, and when a twist is
present rotate its linear part by `R` and add the odometry's own linear
velocity. -/
def transformObject (R : Mat3 K) (t : Point K) (frame_linear : Vector3 K)
    (detection : DetectedObject K) : DetectedObject K :=
  { shape := ⟨⟨detection.shape.polygon.points.map (transformPoint32 R t)⟩⟩,
    kinematics :=
      { detection.kinematics with
        centroid_position := transformPoint R t detection.kinematics.centroid_position,
        position_covariance :=
          if detection.kinematics.has_position_covariance then
            (R.mul detection.kinematics.position_covariance).mul R.transpose
          else
            detection.kinematics.position_covariance,
        twist :=
          if detection.kinematics.has_twist then
            ⟨⟨⟨frame_linear.x + (R.mulVec detection.kinematics.twist.twist.linear).x,
               frame_linear.y + (R.mulVec detection.kinematics.twist.twist.linear).y,
               frame_linear.z + (R.mulVec detection.kinematics.twist.twist.linear).z⟩⟩⟩
          else
            detection.kinematics.twist } }

namespace MultiObjectTracker

/-- `MultiObjectTracker::transform`: move the whole batch into the tracking
frame `frame` using the odometry pose, and stamp the batch with the tracking
frame id. -/
def transform (frame : String) (detections : DetectedObjectsMsg K) (odom : Odometry K) :
    DetectedObjectsMsg K :=
  let rot_d := quatToRot odom.pose.pose.orientation
  { header := ⟨detections.header.stamp, frame⟩,
    objects := detections.objects.map
      (transformObject rot_d odom.pose.pose.position odom.twist.twist.linear) }

/-- `MultiObjectTracker::validate`: the four pre-mutation checks, in source
order. -/
def validate {T C : Type} (g : GeomConsts K) (self : MultiObjectTracker K T C)
    (detections : DetectedObjectsMsg K) (detection_frame_odometry : Odometry K) :
    TrackerUpdateStatus :=
  if detections.header.stamp < self.last_update then
    TrackerUpdateStatus.WentBackInTime
  else if detections.header.frame_id ≠ detection_frame_odometry.child_frame_id then
    TrackerUpdateStatus.DetectionFrameMismatch
  else if detection_frame_odometry.header.frame_id ≠ self.options.frame then
    TrackerUpdateStatus.TrackerFrameMismatch
  else if ¬ is_gravity_aligned g detection_frame_odometry.pose.pose.orientation then
    TrackerUpdateStatus.FrameNotGravityAligned
  else
    TrackerUpdateStatus.Ok

/-- `MultiObjectTracker::update(DetectedObjectsMsg, Odometry)`: validate, then
transform, predict, associate, update/no_update, create, prune, serialize,
advance the timestamp.  Note that the source stores `InvalidShape` into
`result.status` when the associator sets `had_errors` (line 113) but then
unconditionally overwrites `result.status` with `Ok` while building the result
(line 159), so the status of a completed pipeline is always `Ok`. -/
def update {T M C : Type} (g : GeomConsts K) (col : Collaborators K T M C)
    (self : MultiObjectTracker K T C) (detections : DetectedObjectsMsg K)
    (detection_frame_odometry : Odometry K) :
    Option (MultiObjectTracker K T C × TrackerUpdateResult M) :=
  let status := self.validate g detections detection_frame_odometry
  if status ≠ TrackerUpdateStatus.Ok then
    some (self, ⟨status, none⟩)
  else
    let detections := transform self.options.frame detections detection_frame_odometry
    let target_time := detections.header.stamp
    let dt := target_time - self.last_update
    let objects := self.objects.map (fun object => col.ops.predict object dt)
    let association := col.assign detections objects
    do
      let objects ← applyAssignments col.ops association detections objects
      let objects ← applyNoUpdates col.ops association objects
      let buffer := self.creator_buffer ++ [CreatorInput.detections detections association]
      let objects := objects ++ col.create_tracks buffer
      let objects := objects.filter (fun object =>
        ! col.ops.should_be_removed object self.options.pruning_time_threshold
            self.options.pruning_ticks_threshold)
      pure
        ({ self with objects := objects, last_update := target_time, creator_buffer := [] },
         ⟨TrackerUpdateStatus.Ok,
          some ⟨target_time, self.options.frame, objects.map col.ops.msg⟩⟩)

/-- `MultiObjectTracker::update(ClassifiedRoiArrayMsg, Transform)`: run the
vision associator, merge the matched ROI classifications into the matched
tracks, and forward the batch to the `TrackCreator` buffer. -/
def updateVision {T M C : Type} (col : Collaborators K T M C)
    (self : MultiObjectTracker K T C) (rois : ClassifiedRoiArrayMsg C)
    (tf_camera_from_track : TransformMsg K) : Option (MultiObjectTracker K T C) := do
  let association := col.visionAssign rois self.objects tf_camera_from_track
  let objects ← mapIdxOption (fun i object => do
      let maybe_roi_idx ← association.track_assignments[i]?
      if maybe_roi_idx ≠ AssociatorResult.UNASSIGNED then do
        let roi ← rois.rois[maybe_roi_idx]?
        pure (col.ops.updateClassification object roi.classifications)
      else
        pure object) self.objects
  pure
    { self with
      objects := objects,
      creator_buffer := self.creator_buffer ++ [CreatorInput.rois rois association] }

/-- A sequence of detection-cycle calls, threading the tracker state; `none`
as soon as one call hits undefined behaviour. -/
def runUpdates {T M C : Type} (g : GeomConsts K) (col : Collaborators K T M C) :
    MultiObjectTracker K T C → List (DetectedObjectsMsg K × Odometry K) →
    Option (MultiObjectTracker K T C)
  | self, [] => some self
  | self, (d, o) :: rest =>
    match update g col self d o with
    | none => none
    | some (t, _) => runUpdates g col t rest

end MultiObjectTracker

/-- Modelled from the spec: the `TrackedObject` class itself is outside this
translation unit (the orchestrator only calls its interface).  Per §3 of the
design document a track holds a kinematic state (position, velocity), a
classification estimate and two staleness counters.  This concrete model
instantiates the generic track type `T` so the vision path can be analysed
field by field. -/
structure SpecTrack (K C : Type) where
  position : Vector3 K
  velocity : Vector3 K
  classification : C
  time_since_last_update : ℤ
  ticks_since_last_update : ℕ
deriving DecidableEq

/-- Modelled from the spec: `TrackedObject::update(classification)` "merges
the classification into the track" and touches nothing else, so it changes
only the classification estimate. -/
def SpecTrack.updateClassification {K C : Type} (t : SpecTrack K C) (c : C) : SpecTrack K C :=
  { t with classification := c }

/-! ## Concrete fixtures shared by the witnesses (executable instantiation over `ℚ`) -/

/-- A computable stand-in for the geometric constants, used only to exercise
the pipeline on concrete inputs. -/
def wGeom : GeomConsts ℚ := ⟨fun x => x, 1, 1⟩

/-- Trivial track operations over `ℕ`-labelled tracks. -/
def wOps : TrackOps ℚ ℕ ℕ ℕ where
  predict := fun t _ => t
  update := fun t _ => t + 1
  updateClassification := fun t _ => t
  no_update := fun t => t
  should_be_removed := fun _ _ _ => false
  msg := fun t => t

/-- Collaborators whose detection associator reports a shape-interpretation
error and assigns nothing. -/
def wCol : Collaborators ℚ ℕ ℕ ℕ where
  ops := wOps
  assign := fun _ _ => ⟨[], [], [], true⟩
  visionAssign := fun _ _ _ => ⟨[], [], [], false⟩
  create_tracks := fun _ => []

/-- A tracker with no live tracks, tracking frame "track", last update at 0. -/
def wTracker : MultiObjectTracker ℚ ℕ ℕ := ⟨⟨"track", 10, 3⟩, [], 0, []⟩

/-- Identity odometry from detection frame "base" to tracking frame "track". -/
def wOdom : Odometry ℚ := ⟨⟨0, "track"⟩, "base", ⟨⟨⟨0, 0, 0⟩, ⟨0, 0, 0, 1⟩⟩⟩, ⟨⟨⟨0, 0, 0⟩⟩⟩⟩

/-- An empty batch stamped before the tracker's last update. -/
def wDetPast : DetectedObjectsMsg ℚ := ⟨⟨-1, "base"⟩, []⟩

/-- An empty batch stamped exactly at the tracker's last update. -/
def wDetNow : DetectedObjectsMsg ℚ := ⟨⟨0, "base"⟩, []⟩

/-- An empty batch stamped after the tracker's last update. -/
def wDetLater : DetectedObjectsMsg ℚ := ⟨⟨5, "base"⟩, []⟩

/-- One detection with a covariance, a twist and a one-vertex polygon. -/
def wDetection : DetectedObject ℚ :=
  ⟨⟨⟨1, 2, 3⟩, true, ⟨1, 2, 3, 4, 5, 6, 7, 8, 9⟩, true, ⟨⟨⟨1, 1, 1⟩⟩⟩⟩, ⟨⟨[⟨1, 0, 0⟩]⟩⟩⟩

/-- A one-detection batch stamped after the tracker's last update. -/
def wDetBatch : DetectedObjectsMsg ℚ := ⟨⟨5, "base"⟩, [wDetection]⟩

/-- An odometry with a nontrivial (yaw by π) rotation and translation. -/
def wOdomYaw : Odometry ℚ := ⟨⟨0, "track"⟩, "base", ⟨⟨⟨4, 5, 6⟩, ⟨0, 0, 1, 0⟩⟩⟩, ⟨⟨⟨2, 0, 0⟩⟩⟩⟩

/-- `wOdomYaw` with a different translation and velocity but the same rotation. -/
def wOdomYawShifted : Odometry ℚ := ⟨⟨0, "track"⟩, "base", ⟨⟨⟨-7, 1, 2⟩, ⟨0, 0, 1, 0⟩⟩⟩, ⟨⟨⟨0, 3, 0⟩⟩⟩⟩

/-- `wDetection` as transformed by `wOdomYaw`. -/
def wDetectionYawTransformed : DetectedObject ℚ :=
  ⟨⟨⟨3, 3, 9⟩, true, ⟨1, 2, -3, 4, 5, -6, -7, -8, 9⟩, true, ⟨⟨⟨1, -1, 1⟩⟩⟩⟩, ⟨⟨[⟨3, 5, 6⟩]⟩⟩⟩

/-- `wDetection` as transformed by `wOdomYawShifted` (same covariance). -/
def wDetectionYawShiftedTransformed : DetectedObject ℚ :=
  ⟨⟨⟨-8, -1, 5⟩, true, ⟨1, 2, -3, 4, 5, -6, -7, -8, 9⟩, true, ⟨⟨⟨-1, 2, 1⟩⟩⟩⟩, ⟨⟨[⟨-8, 1, 2⟩]⟩⟩⟩

/-- A contract-satisfying association for two tracks and one detection:
track 0 assigned to detection 0, track 1 unassigned. -/
def wAssoc : AssociatorResult := ⟨[0, AssociatorResult.UNASSIGNED], [1], [], false⟩

/-- A tracker with two live tracks labelled 10 and 20. -/
def wTracker7 : MultiObjectTracker ℚ ℕ ℕ := ⟨⟨"track", 10, 3⟩, [10, 20], 0, []⟩

/-- Collaborators whose associators both return `wAssoc`. -/
def wCol7 : Collaborators ℚ ℕ ℕ ℕ := ⟨wOps, fun _ _ => wAssoc, fun _ _ _ => wAssoc, fun _ => []⟩

/-- A one-ROI batch with classification payload 7. -/
def wRois : ClassifiedRoiArrayMsg ℕ := ⟨[⟨7⟩]⟩

/-- An identity camera-from-track transform. -/
def wTf : TransformMsg ℚ := ⟨⟨0, 0, 0⟩, ⟨0, 0, 0, 1⟩⟩

/-- A concrete spec-modelled track. -/
def wSpecTrack : SpecTrack ℚ ℕ := ⟨⟨1, 2, 3⟩, ⟨0, 0, 0⟩, 5, 0, 0⟩

/-- Track operations for the spec-modelled track type. -/
def wSpecOps : TrackOps ℚ (SpecTrack ℚ ℕ) ℕ ℕ :=
  ⟨fun t _ => t, fun t _ => t, SpecTrack.updateClassification, fun t => t,
   fun _ _ _ => false, fun _ => 0⟩

/-- Collaborators over the spec-modelled track type whose vision associator
matches track 0 with ROI 0. -/
def wSpecCol : Collaborators ℚ (SpecTrack ℚ ℕ) ℕ ℕ :=
  ⟨wSpecOps, fun _ _ => ⟨[0], [], [], false⟩, fun _ _ _ => ⟨[0], [], [], false⟩, fun _ => []⟩

/-- A tracker holding the one spec-modelled track. -/
def wSpecTracker : MultiObjectTracker ℚ (SpecTrack ℚ ℕ) ℕ :=
  ⟨⟨"track", 10, 3⟩, [wSpecTrack], 0, []⟩

/-- `wSpecTracker` after the vision update: only the classification became 7
and the ROI batch was forwarded to the creator buffer. -/
def wSpecTrackerAfter : MultiObjectTracker ℚ (SpecTrack ℚ ℕ) ℕ :=
  ⟨⟨"track", 10, 3⟩, [⟨⟨1, 2, 3⟩, ⟨0, 0, 0⟩, 7, 0, 0⟩], 0,
   [CreatorInput.rois wRois ⟨[0], [], [], false⟩]⟩

/-- The geometric constants of `is_gravity_aligned` over `ℝ` (the `double` of
the source modelled as a real number): `std::sqrt`, `std::cos(0.5 * kAngleThresh)`
and `std::cos(kAxisTiltThresh)` with both thresholds equal to 0.1 rad. -/
noncomputable def realGeom : GeomConsts ℝ := ⟨Real.sqrt, Real.cos (0.5 * 0.1), Real.cos 0.1⟩

/-! ## Basic lemmas about the validation gate and the two pipeline branches -/

namespace MultiObjectTracker

variable {T M C : Type}

theorem update_of_validate_ne_ok (g : GeomConsts K) (col : Collaborators K T M C)
    (self : MultiObjectTracker K T C) (d : DetectedObjectsMsg K) (o : Odometry K)
    (h : self.validate g d o ≠ TrackerUpdateStatus.Ok) :
    update g col self d o = some (self, ⟨self.validate g d o, none⟩) := by
  unfold update
  simp [h]

theorem validate_wentBackInTime_iff (g : GeomConsts K) (self : MultiObjectTracker K T C)
    (d : DetectedObjectsMsg K) (o : Odometry K) :
    self.validate g d o = TrackerUpdateStatus.WentBackInTime ↔
      d.header.stamp < self.last_update := by
  unfold validate
  split_ifs <;> simp_all

theorem validate_detectionFrameMismatch_iff (g : GeomConsts K) (self : MultiObjectTracker K T C)
    (d : DetectedObjectsMsg K) (o : Odometry K) :
    self.validate g d o = TrackerUpdateStatus.DetectionFrameMismatch ↔
      ¬ d.header.stamp < self.last_update ∧ d.header.frame_id ≠ o.child_frame_id := by
  unfold validate
  split_ifs <;> simp_all

theorem validate_trackerFrameMismatch_iff (g : GeomConsts K) (self : MultiObjectTracker K T C)
    (d : DetectedObjectsMsg K) (o : Odometry K) :
    self.validate g d o = TrackerUpdateStatus.TrackerFrameMismatch ↔
      ¬ d.header.stamp < self.last_update ∧ d.header.frame_id = o.child_frame_id ∧
        o.header.frame_id ≠ self.options.frame := by
  unfold validate
  split_ifs <;> simp_all

theorem validate_frameNotGravityAligned_iff (g : GeomConsts K) (self : MultiObjectTracker K T C)
    (d : DetectedObjectsMsg K) (o : Odometry K) :
    self.validate g d o = TrackerUpdateStatus.FrameNotGravityAligned ↔
      ¬ d.header.stamp < self.last_update ∧ d.header.frame_id = o.child_frame_id ∧
        o.header.frame_id = self.options.frame ∧
        ¬ is_gravity_aligned g o.pose.pose.orientation := by
  unfold validate
  split_ifs <;> simp_all

theorem validate_ok_iff (g : GeomConsts K) (self : MultiObjectTracker K T C)
    (d : DetectedObjectsMsg K) (o : Odometry K) :
    self.validate g d o = TrackerUpdateStatus.Ok ↔
      ¬ d.header.stamp < self.last_update ∧ d.header.frame_id = o.child_frame_id ∧
        o.header.frame_id = self.options.frame ∧
        is_gravity_aligned g o.pose.pose.orientation := by
  unfold validate
  split_ifs <;> simp_all

/-- Everything that is true of a completed (post-validation) pipeline run:
the status is `Ok` (the source's line-113 `InvalidShape` store is overwritten
at line 159), the result carries the serialized tracks, and the timestamp is
advanced to the batch stamp. -/
theorem update_ok_shape (g : GeomConsts K) (col : Collaborators K T M C)
    (self : MultiObjectTracker K T C) (d : DetectedObjectsMsg K) (o : Odometry K)
    (h : self.validate g d o = TrackerUpdateStatus.Ok)
    (t : MultiObjectTracker K T C) (r : TrackerUpdateResult M)
    (hu : update g col self d o = some (t, r)) :
    r.status = TrackerUpdateStatus.Ok ∧ t.last_update = d.header.stamp ∧
      t.options = self.options ∧ t.creator_buffer = [] ∧ r.objects.isSome := by
  simp only [update, h, ne_eq, not_true_eq_false, if_false, reduceIte] at hu
  obtain ⟨objects1, hA, hu⟩ := Option.bind_eq_some.mp hu
  obtain ⟨objects2, hB, hu⟩ := Option.bind_eq_some.mp hu
  simp only [Option.pure_def, Option.some.injEq, Prod.mk.injEq] at hu
  obtain ⟨hT, hR⟩ := hu
  subst hT
  subst hR
  simp [transform]

end MultiObjectTracker

namespace MultiObjectTracker

/-- A single `update` call never decreases `m_last_update`: a rejected call
leaves it untouched and a completed call sets it to the batch stamp, which
validation guarantees is not earlier. -/
theorem update_last_update_mono {T M C : Type} (g : GeomConsts K)
    (col : Collaborators K T M C) (self : MultiObjectTracker K T C)
    (d : DetectedObjectsMsg K) (o : Odometry K) (t : MultiObjectTracker K T C)
    (r : TrackerUpdateResult M) (hu : update g col self d o = some (t, r)) :
    self.last_update ≤ t.last_update := by
  by_cases hOk : self.validate g d o = TrackerUpdateStatus.Ok
  · have h2 := (update_ok_shape g col self d o hOk t r hu).2.1
    have h3 := ((validate_ok_iff g self d o).mp hOk).1
    rw [h2]
    omega
  · rw [update_of_validate_ne_ok g col self d o hOk] at hu
    simp only [Option.some.injEq, Prod.mk.injEq] at hu
    rw [← hu.1]

/-- On a rejected call the returned tracker is the input tracker. -/
theorem update_of_validate_ne_ok_state {T M C : Type} (g : GeomConsts K)
    (col : Collaborators K T M C) (self : MultiObjectTracker K T C)
    (d : DetectedObjectsMsg K) (o : Odometry K) (t : MultiObjectTracker K T C)
    (r : TrackerUpdateResult M) (hu : update g col self d o = some (t, r))
    (hne : self.validate g d o ≠ TrackerUpdateStatus.Ok) : t = self := by
  rw [update_of_validate_ne_ok g col self d o hne] at hu
  simp only [Option.some.injEq, Prod.mk.injEq] at hu
  exact hu.1.symm

/-- `m_last_update` is monotone along any sequence of detection cycles. -/
theorem runUpdates_last_update_mono {T M C : Type} (g : GeomConsts K)
    (col : Collaborators K T M C) (l : List (DetectedObjectsMsg K × Odometry K)) :
    ∀ (self t : MultiObjectTracker K T C), runUpdates g col self l = some t →
      self.last_update ≤ t.last_update := by
  induction l with
  | nil =>
    intro self t h
    simp only [runUpdates, Option.some.injEq] at h
    rw [h]
  | cons p rest ih =>
    intro self t h
    obtain ⟨d, o⟩ := p
    simp only [runUpdates] at h
    rcases hu : update g col self d o with _ | ⟨t1, r⟩
    · rw [hu] at h; cases h
    · rw [hu] at h
      exact le_trans (update_last_update_mono g col self d o t1 r hu) (ih t1 t h)

end MultiObjectTracker

/-! ## Algebraic facts about the frame transform -/

/-- The identity pose: a vertex is unchanged by the rigid transform built from
the identity quaternion and zero translation. -/
theorem transformPoint32_identity (p : Point32 K) :
    transformPoint32 (⟨1, 0, 0, 0, 1, 0, 0, 0, 1⟩ : Mat3 K) ⟨0, 0, 0⟩ p = p := by
  obtain ⟨a, b, c⟩ := p
  simp [transformPoint32]

/-- The identity pose: the transform loop body is the identity on detections. -/
theorem transformObject_identity (det : DetectedObject K) :
    transformObject (quatToRot ⟨0, 0, 0, 1⟩) ⟨0, 0, 0⟩ ⟨0, 0, 0⟩ det = det := by
  obtain ⟨⟨⟨px, py, pz⟩, hc, ⟨c00, c01, c02, c10, c11, c12, c20, c21, c22⟩, ht,
    ⟨⟨⟨vx, vy, vz⟩⟩⟩⟩, ⟨⟨pts⟩⟩⟩ := det
  have hmap : ∀ l : List (Point32 K),
      List.map (transformPoint32 (⟨1, 0, 0, 0, 1, 0, 0, 0, 1⟩ : Mat3 K) ⟨0, 0, 0⟩) l = l := by
    intro l
    rw [show transformPoint32 (⟨1, 0, 0, 0, 1, 0, 0, 0, 1⟩ : Mat3 K) ⟨0, 0, 0⟩ = id from
      funext transformPoint32_identity, List.map_id]
  cases hc <;> cases ht <;>
    simp [transformObject, quatToRot, Mat3.mul, Mat3.transpose, Mat3.mulVec,
      transformPoint, hmap]

/-! ## Lemmas about the index-aware traversals used by the two update loops -/

theorem mapIdxOptionAux_get? {α β : Type} (f : ℕ → α → Option β) :
    ∀ (k : ℕ) (l : List α) (l' : List β), mapIdxOptionAux f k l = some l' →
      ∀ i : ℕ, l'[i]? = l[i]?.bind (fun a => f (k + i) a) := by
  intro k l
  induction l generalizing k with
  | nil =>
    intro l' h i
    simp only [mapIdxOptionAux, Option.some.injEq] at h
    subst h
    simp
  | cons a as ih =>
    intro l' h i
    simp only [mapIdxOptionAux] at h
    obtain ⟨b, hb, h⟩ := Option.bind_eq_some.mp h
    obtain ⟨bs, hbs, h⟩ := Option.bind_eq_some.mp h
    simp only [Option.pure_def, Option.some.injEq] at h
    subst h
    cases i with
    | zero => simpa using hb.symm
    | succ i =>
      have hrec := ih (k + 1) bs hbs i
      have h2 : k + 1 + i = k + (i + 1) := by omega
      rw [h2] at hrec
      simpa using hrec

theorem mapIdxOptionAux_length {α β : Type} (f : ℕ → α → Option β) :
    ∀ (k : ℕ) (l : List α) (l' : List β), mapIdxOptionAux f k l = some l' →
      l'.length = l.length := by
  intro k l
  induction l generalizing k with
  | nil =>
    intro l' h
    simp only [mapIdxOptionAux, Option.some.injEq] at h
    subst h
    rfl
  | cons a as ih =>
    intro l' h
    simp only [mapIdxOptionAux] at h
    obtain ⟨b, hb, h⟩ := Option.bind_eq_some.mp h
    obtain ⟨bs, hbs, h⟩ := Option.bind_eq_some.mp h
    simp only [Option.pure_def, Option.some.injEq] at h
    subst h
    simpa using ih (k + 1) bs hbs

theorem mapIdxOptionAux_isSome {α β : Type} (f : ℕ → α → Option β) :
    ∀ (k : ℕ) (l : List α),
      (∀ (i : ℕ) (a : α), l[i]? = some a → (f (k + i) a).isSome) →
      (mapIdxOptionAux f k l).isSome := by
  intro k l
  induction l generalizing k with
  | nil => intro _; simp [mapIdxOptionAux]
  | cons a as ih =>
    intro h
    have h0 : (f k a).isSome := by simpa using h 0 a (by simp)
    obtain ⟨b, hb⟩ := Option.isSome_iff_exists.mp h0
    have hrest : (mapIdxOptionAux f (k + 1) as).isSome := by
      refine ih (k + 1) ?_
      intro i x hx
      have := h (i + 1) x (by simpa using hx)
      have h2 : k + (i + 1) = k + 1 + i := by omega
      rw [h2] at this
      exact this
    obtain ⟨bs, hbs⟩ := Option.isSome_iff_exists.mp hrest
    simp [mapIdxOptionAux, hb, hbs]

theorem mapIdxOption_get? {α β : Type} (f : ℕ → α → Option β) (l : List α) (l' : List β)
    (h : mapIdxOption f l = some l') (i : ℕ) :
    l'[i]? = l[i]?.bind (fun a => f i a) := by
  simpa using mapIdxOptionAux_get? f 0 l l' h i

theorem mapIdxOption_length {α β : Type} (f : ℕ → α → Option β) (l : List α) (l' : List β)
    (h : mapIdxOption f l = some l') : l'.length = l.length :=
  mapIdxOptionAux_length f 0 l l' h

theorem mapIdxOption_isSome {α β : Type} (f : ℕ → α → Option β) (l : List α)
    (h : ∀ (i : ℕ) (a : α), l[i]? = some a → (f i a).isSome) :
    (mapIdxOption f l).isSome := by
  refine mapIdxOptionAux_isSome f 0 l ?_
  intro i a ha
  simpa using h i a ha

theorem modifyIdx?_isSome {α : Type} (fn : α → α) :
    ∀ (l : List α) (i : ℕ), (modifyIdx? l i fn).isSome ↔ i < l.length := by
  intro l
  induction l with
  | nil => intro i; simp [modifyIdx?]
  | cons a as ih =>
    intro i
    cases i with
    | zero => simp [modifyIdx?]
    | succ n =>
      simp only [modifyIdx?, Option.isSome_map', List.length_cons]
      rw [ih n]
      omega

theorem modifyIdx?_spec {α : Type} (fn : α → α) :
    ∀ (l l' : List α) (i : ℕ), modifyIdx? l i fn = some l' →
      l'.length = l.length ∧ l'[i]? = l[i]?.map fn ∧
      ∀ j : ℕ, j ≠ i → l'[j]? = l[j]? := by
  intro l
  induction l with
  | nil => intro l' i h; simp [modifyIdx?] at h
  | cons a as ih =>
    intro l' i h
    cases i with
    | zero =>
      simp only [modifyIdx?, Option.some.injEq] at h
      subst h
      refine ⟨by simp, by simp, ?_⟩
      intro j hj
      cases j with
      | zero => exact absurd rfl hj
      | succ m => simp
    | succ n =>
      simp only [modifyIdx?] at h
      obtain ⟨as', has, h⟩ := Option.map_eq_some'.mp h
      subst h
      obtain ⟨hlen, hget, hother⟩ := ih as' n has
      refine ⟨by simp [hlen], by simpa using hget, ?_⟩
      intro j hj
      cases j with
      | zero => simp
      | succ m => simpa using hother m (by omega)

theorem foldl_modifyIdx_none {α : Type} (fn : α → α) :
    ∀ idxs : List ℕ,
      List.foldl (fun acc j => acc.bind (fun l => modifyIdx? l j fn)) none idxs = none := by
  intro idxs
  induction idxs with
  | nil => rfl
  | cons j rest ih => simpa using ih

theorem foldl_modifyIdx_isSome {α : Type} (fn : α → α) :
    ∀ (idxs : List ℕ) (objs : List α), (∀ j ∈ idxs, j < objs.length) →
      ∃ l2, List.foldl (fun acc j => acc.bind (fun l => modifyIdx? l j fn)) (some objs) idxs
          = some l2 ∧ l2.length = objs.length := by
  intro idxs
  induction idxs with
  | nil => intro objs _; exact ⟨objs, rfl, rfl⟩
  | cons j rest ih =>
    intro objs h
    have hj : j < objs.length := h j (by simp)
    obtain ⟨objs1, h1⟩ := Option.isSome_iff_exists.mp ((modifyIdx?_isSome fn objs j).mpr hj)
    obtain ⟨hlen1, _, _⟩ := modifyIdx?_spec fn objs objs1 j h1
    obtain ⟨l2, h2, hlen2⟩ := ih objs1 (fun x hx => by
      rw [hlen1]; exact h x (List.mem_cons_of_mem _ hx))
    refine ⟨l2, ?_, by rw [hlen2, hlen1]⟩
    simpa [h1] using h2

theorem foldl_modifyIdx_char {α : Type} (fn : α → α) :
    ∀ (idxs : List ℕ) (objs l2 : List α),
      List.foldl (fun acc j => acc.bind (fun l => modifyIdx? l j fn)) (some objs) idxs
        = some l2 →
      idxs.Nodup →
      (∀ j ∈ idxs, l2[j]? = objs[j]?.map fn) ∧
      (∀ j : ℕ, j ∉ idxs → l2[j]? = objs[j]?) ∧ l2.length = objs.length := by
  intro idxs
  induction idxs with
  | nil =>
    intro objs l2 h _
    simp only [List.foldl_nil, Option.some.injEq] at h
    subst h
    exact ⟨by simp, fun _ _ => rfl, rfl⟩
  | cons j rest ih =>
    intro objs l2 h hnd
    simp only [List.foldl_cons, Option.some_bind] at h
    rcases h1 : modifyIdx? objs j fn with _ | objs1
    · rw [h1, foldl_modifyIdx_none fn rest] at h
      cases h
    · rw [h1] at h
      obtain ⟨hjrest, hndrest⟩ := List.nodup_cons.mp hnd
      obtain ⟨hin, hout, hlen⟩ := ih objs1 l2 h hndrest
      obtain ⟨hlen1, hgetj, hother⟩ := modifyIdx?_spec fn objs objs1 j h1
      refine ⟨?_, ?_, hlen.trans hlen1⟩
      · intro x hx
        rcases List.mem_cons.mp hx with rfl | hx
        · rw [hout x hjrest, hgetj]
        · have hxj : x ≠ j := fun hxy => hjrest (hxy ▸ hx)
          rw [hin x hx, hother x hxj]
      · intro x hx
        have hxj : x ≠ j := fun hxy => hx (hxy ▸ List.mem_cons_self j rest)
        have hxrest : x ∉ rest := fun hr => hx (List.mem_cons_of_mem _ hr)
        rw [hout x hxrest, hother x hxj]

/-- The decay loop, written as a fold over `Option`. -/
theorem applyNoUpdates_eq_foldl {T M C : Type} (ops : TrackOps K T M C)
    (association : AssociatorResult) (objects : List T) :
    applyNoUpdates ops association objects =
      association.unassigned_track_indices.foldl
        (fun acc j => acc.bind (fun l => modifyIdx? l j ops.no_update)) (some objects) := rfl

/-- The assignment loop succeeds whenever there is one assignment entry per
track and every non-`UNASSIGNED` entry is a valid detection index. -/
theorem applyAssignments_some {T M C : Type} (ops : TrackOps K T M C)
    (association : AssociatorResult) (detections : DetectedObjectsMsg K) (objects : List T)
    (hlen : association.track_assignments.length = objects.length)
    (hvalid : ∀ (i : ℕ) (hi : i < association.track_assignments.length),
      association.track_assignments[i] ≠ AssociatorResult.UNASSIGNED →
        association.track_assignments[i] < detections.objects.length) :
    ∃ l1, applyAssignments ops association detections objects = some l1 ∧
      l1.length = objects.length := by
  have hs : (applyAssignments ops association detections objects).isSome := by
    unfold applyAssignments
    refine mapIdxOption_isSome _ objects ?_
    intro i a ha
    have hi : i < objects.length := (List.getElem?_eq_some.mp ha).1
    have hia : i < association.track_assignments.length := by omega
    have hgi : association.track_assignments[i]? =
        some association.track_assignments[i] := List.getElem?_eq_getElem hia
    by_cases hdi : association.track_assignments[i] = AssociatorResult.UNASSIGNED
    · simp [hgi, hdi]
    · have hlt := hvalid i hia hdi
      have hdet : detections.objects[association.track_assignments[i]]? =
          some detections.objects[association.track_assignments[i]] :=
        List.getElem?_eq_getElem hlt
      simp [hgi, hdi, hdet]
  obtain ⟨l1, hl1⟩ := Option.isSome_iff_exists.mp hs
  have hl1' : mapIdxOption (fun track_idx object =>
      association.track_assignments[track_idx]?.bind (fun detection_idx =>
        if detection_idx = AssociatorResult.UNASSIGNED then pure object
        else detections.objects[detection_idx]?.bind
          (fun detection => pure (ops.update object detection)))) objects = some l1 := hl1
  exact ⟨l1, hl1, mapIdxOption_length _ objects l1 hl1'⟩

/-- Both per-track loops of a detection cycle succeed under the bounds part of
the associator contract. -/
theorem stages_some {T M C : Type} (ops : TrackOps K T M C)
    (association : AssociatorResult) (detections : DetectedObjectsMsg K) (objects : List T)
    (hlen : association.track_assignments.length = objects.length)
    (hvalid : ∀ (i : ℕ) (hi : i < association.track_assignments.length),
      association.track_assignments[i] ≠ AssociatorResult.UNASSIGNED →
        association.track_assignments[i] < detections.objects.length)
    (hrange : ∀ j ∈ association.unassigned_track_indices, j < objects.length) :
    ∃ l2, (applyAssignments ops association detections objects).bind
        (applyNoUpdates ops association) = some l2 ∧ l2.length = objects.length := by
  obtain ⟨l1, hl1, hlen1⟩ := applyAssignments_some ops association detections objects hlen hvalid
  obtain ⟨l2, hl2, hlen2⟩ := foldl_modifyIdx_isSome ops.no_update
    association.unassigned_track_indices l1 (fun j hj => by rw [hlen1]; exact hrange j hj)
  refine ⟨l2, ?_, by rw [hlen2, hlen1]⟩
  rw [hl1, Option.some_bind, applyNoUpdates_eq_foldl, hl2]

/-- The assignment loop, element by element. -/
theorem applyAssignments_getElem? {T M C : Type} (ops : TrackOps K T M C)
    (association : AssociatorResult) (detections : DetectedObjectsMsg K)
    (objects l1 : List T)
    (hA : applyAssignments ops association detections objects = some l1) (i : ℕ) :
    l1[i]? = objects[i]?.bind (fun object =>
      association.track_assignments[i]?.bind (fun detection_idx =>
        if detection_idx = AssociatorResult.UNASSIGNED then some object
        else detections.objects[detection_idx]?.bind
          (fun detection => some (ops.update object detection)))) ∧
      l1.length = objects.length := by
  have hA' : mapIdxOption (fun track_idx object =>
      association.track_assignments[track_idx]?.bind (fun detection_idx =>
        if detection_idx = AssociatorResult.UNASSIGNED then pure object
        else detections.objects[detection_idx]?.bind
          (fun detection => pure (ops.update object detection)))) objects = some l1 := hA
  exact ⟨mapIdxOption_get? _ objects l1 hA' i, mapIdxOption_length _ objects l1 hA'⟩

/-! ## Claim theorems -/

/-- C1: for every detection batch and odometry input failing one of the four
validation preconditions, `update` returns the status of the first failing
check in the fixed order WentBackInTime, DetectionFrameMismatch,
TrackerFrameMismatch, FrameNotGravityAligned (expressed by the four
equivalences below), the returned tracker state is exactly the state before
the call (tracks, timestamp and creator buffer untouched), and the result
carries only the status (`objects = none`). -/
theorem C1_validation_failure_is_noop_with_first_failing_status
    {T M C : Type} (g : GeomConsts K) (col : Collaborators K T M C)
    (self : MultiObjectTracker K T C) (d : DetectedObjectsMsg K) (o : Odometry K)
    (h : self.validate g d o ≠ TrackerUpdateStatus.Ok) :
    MultiObjectTracker.update g col self d o = some (self, ⟨self.validate g d o, none⟩) ∧
    (self.validate g d o = TrackerUpdateStatus.WentBackInTime ↔
      d.header.stamp < self.last_update) ∧
    (self.validate g d o = TrackerUpdateStatus.DetectionFrameMismatch ↔
      ¬ d.header.stamp < self.last_update ∧ d.header.frame_id ≠ o.child_frame_id) ∧
    (self.validate g d o = TrackerUpdateStatus.TrackerFrameMismatch ↔
      ¬ d.header.stamp < self.last_update ∧ d.header.frame_id = o.child_frame_id ∧
        o.header.frame_id ≠ self.options.frame) ∧
    (self.validate g d o = TrackerUpdateStatus.FrameNotGravityAligned ↔
      ¬ d.header.stamp < self.last_update ∧ d.header.frame_id = o.child_frame_id ∧
        o.header.frame_id = self.options.frame ∧
        ¬ is_gravity_aligned g o.pose.pose.orientation) :=
  ⟨MultiObjectTracker.update_of_validate_ne_ok g col self d o h,
   MultiObjectTracker.validate_wentBackInTime_iff g self d o,
   MultiObjectTracker.validate_detectionFrameMismatch_iff g self d o,
   MultiObjectTracker.validate_trackerFrameMismatch_iff g self d o,
   MultiObjectTracker.validate_frameNotGravityAligned_iff g self d o⟩

/-- Witness for C1 at a concrete input: a batch stamped before the last
update fails validation and the call is a no-op carrying `WentBackInTime`. -/
theorem C1_witness :
    wTracker.validate wGeom wDetPast wOdom ≠ TrackerUpdateStatus.Ok ∧
    MultiObjectTracker.update wGeom wCol wTracker wDetPast wOdom
      = some (wTracker, ⟨TrackerUpdateStatus.WentBackInTime, none⟩) := by
  refine ⟨by decide, ?_⟩
  rw [(C1_validation_failure_is_noop_with_first_failing_status wGeom wCol wTracker wDetPast
    wOdom (by decide)).1]
  decide

/-- C3: `update` reports `WentBackInTime` exactly when the batch stamp is
strictly less than the tracker's last update; in that case the whole tracker
state is unchanged; and a batch stamped exactly at the last update passes this
check. -/
theorem C3_wentBackInTime_iff_stamp_strictly_before
    {T M C : Type} (g : GeomConsts K) (col : Collaborators K T M C)
    (self : MultiObjectTracker K T C) (d : DetectedObjectsMsg K) (o : Odometry K) :
    ((MultiObjectTracker.update g col self d o).map (fun p => p.2.status)
        = some TrackerUpdateStatus.WentBackInTime ↔
      d.header.stamp < self.last_update) ∧
    (d.header.stamp < self.last_update →
      MultiObjectTracker.update g col self d o
        = some (self, ⟨TrackerUpdateStatus.WentBackInTime, none⟩)) ∧
    (d.header.stamp = self.last_update →
      self.validate g d o ≠ TrackerUpdateStatus.WentBackInTime) := by
  have hback : d.header.stamp < self.last_update →
      MultiObjectTracker.update g col self d o
        = some (self, ⟨TrackerUpdateStatus.WentBackInTime, none⟩) := by
    intro hlt
    have hv : self.validate g d o = TrackerUpdateStatus.WentBackInTime :=
      (MultiObjectTracker.validate_wentBackInTime_iff g self d o).mpr hlt
    rw [MultiObjectTracker.update_of_validate_ne_ok g col self d o (by simp [hv]), hv]
  refine ⟨⟨?_, fun hlt => by rw [hback hlt]; rfl⟩, hback, ?_⟩
  · intro hm
    by_cases hOk : self.validate g d o = TrackerUpdateStatus.Ok
    · rcases hu : MultiObjectTracker.update g col self d o with _ | ⟨t, r⟩
      · rw [hu] at hm; simp at hm
      · rw [hu] at hm
        simp only [Option.map_some', Option.some.injEq] at hm
        have := (MultiObjectTracker.update_ok_shape g col self d o hOk t r hu).1
        rw [hm] at this
        exact absurd this (by simp)
    · rw [MultiObjectTracker.update_of_validate_ne_ok g col self d o hOk] at hm
      simp only [Option.map_some', Option.some.injEq] at hm
      exact (MultiObjectTracker.validate_wentBackInTime_iff g self d o).mp hm
  · intro heq hc
    have hlt := (MultiObjectTracker.validate_wentBackInTime_iff g self d o).mp hc
    rw [heq] at hlt
    exact lt_irrefl _ hlt

/-- Witness for C3: the strictly-earlier batch yields `WentBackInTime`, and
the batch stamped exactly at the last update passes the back-in-time check. -/
theorem C3_witness :
    (MultiObjectTracker.update wGeom wCol wTracker wDetPast wOdom).map (fun p => p.2.status)
      = some TrackerUpdateStatus.WentBackInTime ∧
    wTracker.validate wGeom wDetNow wOdom ≠ TrackerUpdateStatus.WentBackInTime := by
  constructor
  · exact (C3_wentBackInTime_iff_stamp_strictly_before wGeom wCol wTracker wDetPast
      wOdom).1.mpr (by decide)
  · exact (C3_wentBackInTime_iff_stamp_strictly_before wGeom wCol wTracker wDetNow
      wOdom).2.2 (by decide)

/-- C6: across any sequence of detection-cycle calls the last-update timestamp
is monotonically non-decreasing; a successful call sets it to the batch's
capture time (which validation guarantees is not earlier), and a rejected call
leaves the tracker (hence the timestamp) unchanged. -/
theorem C6_last_update_monotone {T M C : Type} (g : GeomConsts K)
    (col : Collaborators K T M C) :
    (∀ (self t : MultiObjectTracker K T C) (l : List (DetectedObjectsMsg K × Odometry K)),
      MultiObjectTracker.runUpdates g col self l = some t →
        self.last_update ≤ t.last_update) ∧
    (∀ (self t : MultiObjectTracker K T C) (d : DetectedObjectsMsg K) (o : Odometry K)
        (r : TrackerUpdateResult M),
      MultiObjectTracker.update g col self d o = some (t, r) →
        (self.validate g d o = TrackerUpdateStatus.Ok →
          t.last_update = d.header.stamp ∧ self.last_update ≤ d.header.stamp) ∧
        (self.validate g d o ≠ TrackerUpdateStatus.Ok → t = self)) := by
  constructor
  · intro self t l h
    exact MultiObjectTracker.runUpdates_last_update_mono g col l self t h
  · intro self t d o r hu
    constructor
    · intro hOk
      have hnl := ((MultiObjectTracker.validate_ok_iff g self d o).mp hOk).1
      exact ⟨(MultiObjectTracker.update_ok_shape g col self d o hOk t r hu).2.1, by omega⟩
    · intro hne
      exact MultiObjectTracker.update_of_validate_ne_ok_state g col self d o t r hu hne

/-- Witness for C6: a two-cycle run (a successful later batch preceded by a
rejected early batch) keeps the timestamp non-decreasing. -/
theorem C6_witness :
    MultiObjectTracker.runUpdates wGeom wCol wTracker [(wDetPast, wOdom), (wDetLater, wOdom)]
      = some ⟨⟨"track", 10, 3⟩, [], 5, []⟩ ∧
    wTracker.last_update ≤ (5 : ℤ) := by
  have h1 : MultiObjectTracker.runUpdates wGeom wCol wTracker
      [(wDetPast, wOdom), (wDetLater, wOdom)] = some ⟨⟨"track", 10, 3⟩, [], 5, []⟩ := by
    decide
  refine ⟨h1, ?_⟩
  exact (C6_last_update_monotone wGeom wCol).1 wTracker ⟨⟨"track", 10, 3⟩, [], 5, []⟩
    [(wDetPast, wOdom), (wDetLater, wOdom)] h1

/-- C5: transforming a detection batch by the identity odometry (zero
translation, identity rotation, zero linear velocity) leaves every detection —
centroid, shape polygon, covariance, twist — unchanged; only the batch header's
frame id changes to the supplied tracking frame (the stamp is kept). -/
theorem C5_identity_odometry_changes_only_frame_id
    (frame : String) (d : DetectedObjectsMsg K) (o : Odometry K)
    (hq : o.pose.pose.orientation = ⟨0, 0, 0, 1⟩)
    (hp : o.pose.pose.position = ⟨0, 0, 0⟩)
    (hv : o.twist.twist.linear = ⟨0, 0, 0⟩) :
    MultiObjectTracker.transform frame d o = ⟨⟨d.header.stamp, frame⟩, d.objects⟩ := by
  simp only [MultiObjectTracker.transform, hq, hp, hv]
  rw [show transformObject (quatToRot (⟨0, 0, 0, 1⟩ : Quaternion K)) ⟨0, 0, 0⟩ ⟨0, 0, 0⟩ = id from
    funext transformObject_identity, List.map_id]

/-- Witness for C5: the identity odometry on a one-detection batch with
covariance, twist and polygon returns the batch unchanged except the frame. -/
theorem C5_witness :
    wOdom.pose.pose.orientation = ⟨0, 0, 0, 1⟩ ∧ wOdom.pose.pose.position = ⟨0, 0, 0⟩ ∧
    wOdom.twist.twist.linear = ⟨0, 0, 0⟩ ∧
    MultiObjectTracker.transform "track" wDetBatch wOdom = ⟨⟨5, "track"⟩, [wDetection]⟩ := by
  refine ⟨rfl, rfl, rfl, ?_⟩
  rw [C5_identity_odometry_changes_only_frame_id "track" wDetBatch wOdom rfl rfl rfl]
  rfl

/-- C8: in the transform step, a detection carrying a position covariance gets
`R · cov · Rᵗ` with `R` the rotation part of the odometry pose; a detection
without the presence flag keeps its covariance; and any odometry with the same
orientation (any translation, any velocity) produces the same covariance. -/
theorem C8_covariance_similarity_transform_translation_irrelevant
    (frame : String) (d : DetectedObjectsMsg K) (o : Odometry K)
    (i : ℕ) (det det' : DetectedObject K)
    (hdet : d.objects.get? i = some det)
    (hdet' : (MultiObjectTracker.transform frame d o).objects.get? i = some det') :
    (det.kinematics.has_position_covariance = true →
      det'.kinematics.position_covariance =
        ((quatToRot o.pose.pose.orientation).mul det.kinematics.position_covariance).mul
          (quatToRot o.pose.pose.orientation).transpose) ∧
    (det.kinematics.has_position_covariance = false →
      det'.kinematics.position_covariance = det.kinematics.position_covariance) ∧
    (∀ o2 : Odometry K, o2.pose.pose.orientation = o.pose.pose.orientation →
      ∀ det2 : DetectedObject K,
        (MultiObjectTracker.transform frame d o2).objects.get? i = some det2 →
          det2.kinematics.position_covariance = det'.kinematics.position_covariance) := by
  have hmain : ∀ (o3 : Odometry K) (det3 : DetectedObject K),
      (MultiObjectTracker.transform frame d o3).objects.get? i = some det3 →
      det3 = transformObject (quatToRot o3.pose.pose.orientation) o3.pose.pose.position
        o3.twist.twist.linear det := by
    intro o3 det3 h3
    simp only [MultiObjectTracker.transform, List.get?_map, hdet, Option.map_some',
      Option.some.injEq] at h3
    exact h3.symm
  have h' := hmain o det' hdet'
  subst h'
  refine ⟨?_, ?_, ?_⟩
  · intro hflag
    simp [transformObject, hflag]
  · intro hflag
    simp [transformObject, hflag]
  · intro o2 ho2 det2 h2
    rw [hmain o2 det2 h2, ho2]
    simp [transformObject]

/-- Witness for C8: a yaw-by-π odometry rotates the covariance by the
similarity transform, and shifting the translation and velocity leaves the
covariance untouched. -/
theorem C8_witness :
    wDetBatch.objects.get? 0 = some wDetection ∧
    (MultiObjectTracker.transform "track" wDetBatch wOdomYaw).objects.get? 0
      = some wDetectionYawTransformed ∧
    wDetection.kinematics.has_position_covariance = true ∧
    wDetectionYawTransformed.kinematics.position_covariance =
      ((quatToRot wOdomYaw.pose.pose.orientation).mul
        wDetection.kinematics.position_covariance).mul
        (quatToRot wOdomYaw.pose.pose.orientation).transpose ∧
    wDetectionYawShiftedTransformed.kinematics.position_covariance =
      wDetectionYawTransformed.kinematics.position_covariance := by
  have hdet1 : (MultiObjectTracker.transform "track" wDetBatch wOdomYaw).objects.get? 0
      = some wDetectionYawTransformed := by
    simp only [MultiObjectTracker.transform, wDetBatch, wOdomYaw, wDetection,
      wDetectionYawTransformed, quatToRot, transformObject, transformPoint,
      transformPoint32, Mat3.mul, Mat3.transpose, Mat3.mulVec, List.map_cons,
      List.map_nil, List.get?]
    norm_num
  have hdet2 : (MultiObjectTracker.transform "track" wDetBatch wOdomYawShifted).objects.get? 0
      = some wDetectionYawShiftedTransformed := by
    simp only [MultiObjectTracker.transform, wDetBatch, wOdomYawShifted, wDetection,
      wDetectionYawShiftedTransformed, quatToRot, transformObject, transformPoint,
      transformPoint32, Mat3.mul, Mat3.transpose, Mat3.mulVec, List.map_cons,
      List.map_nil, List.get?]
    norm_num
  have h := C8_covariance_similarity_transform_translation_irrelevant "track" wDetBatch wOdomYaw 0
    wDetection wDetectionYawTransformed (by rfl) hdet1
  refine ⟨rfl, hdet1, rfl, h.1 rfl, ?_⟩
  exact h.2.2 wOdomYawShifted rfl wDetectionYawShiftedTransformed hdet2

/-- C2 (behaviour at the failing input): a batch that passes validation while
the associator reports `had_errors` still runs the whole pipeline — the
timestamp advances to the batch stamp and the serialized result is built — but
the returned status is `Ok`, not `InvalidShape`: the `InvalidShape` store of
source line 113 is unconditionally overwritten with `Ok` at line 159. -/
theorem C2_had_errors_pipeline_completes_but_status_is_ok :
    (wCol.assign (MultiObjectTracker.transform wTracker.options.frame wDetLater wOdom)
        (wTracker.objects.map (fun object => wCol.ops.predict object 5))).had_errors = true ∧
    wTracker.validate wGeom wDetLater wOdom = TrackerUpdateStatus.Ok ∧
    MultiObjectTracker.update wGeom wCol wTracker wDetLater wOdom
      = some (⟨⟨"track", 10, 3⟩, [], 5, []⟩,
              ⟨TrackerUpdateStatus.Ok, some ⟨5, "track", []⟩⟩) ∧
    TrackerUpdateStatus.Ok ≠ TrackerUpdateStatus.InvalidShape := by
  decide


/-- C7: under the associator contract — one assignment entry per live track,
the unassigned-track set exactly complementary to the assigned entries and
duplicate-free with valid indices, and every assigned detection index valid —
both per-track loops of a detection cycle succeed, and every track that was
alive at association time receives exactly one of update / no_update: its slot
in the resulting collection holds `ops.update` of it when it is assigned and
`ops.no_update` of it when it is unassigned. -/
theorem C7_every_live_track_gets_exactly_one_of_update_or_no_update
    {T M C : Type} (ops : TrackOps K T M C) (association : AssociatorResult)
    (detections : DetectedObjectsMsg K) (objects : List T)
    (hlen : association.track_assignments.length = objects.length)
    (hcompl : ∀ (i : ℕ) (hi : i < association.track_assignments.length),
      association.track_assignments[i] = AssociatorResult.UNASSIGNED ↔
        i ∈ association.unassigned_track_indices)
    (hnodup : association.unassigned_track_indices.Nodup)
    (hrange : ∀ j ∈ association.unassigned_track_indices, j < objects.length)
    (hvalid : ∀ (i : ℕ) (hi : i < association.track_assignments.length),
      association.track_assignments[i] ≠ AssociatorResult.UNASSIGNED →
        association.track_assignments[i] < detections.objects.length) :
    ((applyAssignments ops association detections objects).bind
        (applyNoUpdates ops association)).isSome ∧
    ∀ l2, (applyAssignments ops association detections objects).bind
        (applyNoUpdates ops association) = some l2 →
      l2.length = objects.length ∧
      ∀ (i : ℕ) (hi : i < objects.length) (hia : i < association.track_assignments.length),
        (association.track_assignments[i] = AssociatorResult.UNASSIGNED →
          l2[i]? = some (ops.no_update objects[i])) ∧
        (association.track_assignments[i] ≠ AssociatorResult.UNASSIGNED →
          ∃ det, detections.objects[association.track_assignments[i]]? = some det ∧
            l2[i]? = some (ops.update objects[i] det)) := by
  obtain ⟨l2x, hl2x, _⟩ := stages_some ops association detections objects hlen hvalid hrange
  refine ⟨by rw [hl2x]; rfl, ?_⟩
  intro l2 hcomp
  obtain ⟨l1, hA, hB⟩ := Option.bind_eq_some.mp hcomp
  have hAc := fun i : ℕ =>
    (applyAssignments_getElem? ops association detections objects l1 hA i).1
  have hl1len := (applyAssignments_getElem? ops association detections objects l1 hA 0).2
  rw [applyNoUpdates_eq_foldl] at hB
  obtain ⟨hin, hout, hlen2⟩ := foldl_modifyIdx_char ops.no_update
    association.unassigned_track_indices l1 l2 hB hnodup
  refine ⟨by rw [hlen2, hl1len], ?_⟩
  intro i hi hia
  have hoi : objects[i]? = some objects[i] := List.getElem?_eq_getElem hi
  have hgi : association.track_assignments[i]? = some association.track_assignments[i] :=
    List.getElem?_eq_getElem hia
  constructor
  · intro hdi
    have hmem : i ∈ association.unassigned_track_indices := (hcompl i hia).mp hdi
    have h1i : l1[i]? = some objects[i] := by
      rw [hAc i, hoi, Option.some_bind, hgi, Option.some_bind, if_pos hdi]
    rw [hin i hmem, h1i, Option.map_some']
  · intro hdi
    have hnotmem : i ∉ association.unassigned_track_indices := fun hm =>
      hdi ((hcompl i hia).mpr hm)
    have hlt := hvalid i hia hdi
    have hdet : detections.objects[association.track_assignments[i]]? =
        some detections.objects[association.track_assignments[i]] :=
      List.getElem?_eq_getElem hlt
    refine ⟨detections.objects[association.track_assignments[i]], hdet, ?_⟩
    rw [hout i hnotmem, hAc i, hoi, Option.some_bind, hgi, Option.some_bind, if_neg hdi,
      hdet, Option.some_bind]

/-- Witness for C7: two tracks, one assigned and one unassigned, both loops
succeed. -/
theorem C7_witness :
    (wAssoc.track_assignments.length = ([10, 20] : List ℕ).length ∧
      wAssoc.unassigned_track_indices.Nodup) ∧
    ((applyAssignments wOps wAssoc wDetBatch [10, 20]).bind
        (applyNoUpdates wOps wAssoc)).isSome := by
  refine ⟨⟨by decide, by decide⟩, ?_⟩
  exact (C7_every_live_track_gets_exactly_one_of_update_or_no_update wOps wAssoc wDetBatch
    [10, 20] (by decide) (by decide) (by decide) (by decide) (by decide)).1


/-- C9: over the spec-modelled track type, the vision update changes only the
classification of the tracks matched by the vision associator: the tracker's
last-update timestamp, its options, the number of live tracks, and every
track's kinematic state and staleness counters are unchanged; a track whose
assignment entry is `UNASSIGNED` is wholly untouched; and the ROI batch is
only forwarded to the TrackCreator accumulation buffer. -/
theorem C9_vision_update_changes_only_classification
    {M C : Type} (col : Collaborators K (SpecTrack K C) M C)
    (hcls : col.ops.updateClassification = SpecTrack.updateClassification)
    (self : MultiObjectTracker K (SpecTrack K C) C) (rois : ClassifiedRoiArrayMsg C)
    (tf : TransformMsg K) (t : MultiObjectTracker K (SpecTrack K C) C)
    (hu : MultiObjectTracker.updateVision col self rois tf = some t) :
    t.last_update = self.last_update ∧
    t.options = self.options ∧
    t.objects.length = self.objects.length ∧
    (∀ (i : ℕ) (hi : i < self.objects.length) (hi2 : i < t.objects.length),
      (t.objects[i]).position = (self.objects[i]).position ∧
      (t.objects[i]).velocity = (self.objects[i]).velocity ∧
      (t.objects[i]).time_since_last_update = (self.objects[i]).time_since_last_update ∧
      (t.objects[i]).ticks_since_last_update = (self.objects[i]).ticks_since_last_update) ∧
    (∀ i : ℕ, (col.visionAssign rois self.objects tf).track_assignments[i]?
        = some AssociatorResult.UNASSIGNED → t.objects[i]? = self.objects[i]?) ∧
    t.creator_buffer = self.creator_buffer ++
      [CreatorInput.rois rois (col.visionAssign rois self.objects tf)] := by
  simp only [MultiObjectTracker.updateVision] at hu
  obtain ⟨objects1, hm, hu⟩ := Option.bind_eq_some.mp hu
  simp only [Option.pure_def, Option.some.injEq] at hu
  subst hu
  refine ⟨rfl, rfl, mapIdxOption_length _ _ _ hm, ?_, ?_, rfl⟩
  · intro i hi hi2
    have hchar := mapIdxOption_get? _ self.objects objects1 hm i
    have hoi : self.objects[i]? = some self.objects[i] := List.getElem?_eq_getElem hi
    have hoi2 : objects1[i]? = some objects1[i] := List.getElem?_eq_getElem hi2
    rw [hoi2, hoi] at hchar
    simp only [Option.bind_eq_bind, Option.some_bind] at hchar
    rcases ha : (col.visionAssign rois self.objects tf).track_assignments[i]? with _ | mri
    · rw [ha] at hchar
      simp at hchar
    · simp only [ha, Option.bind_eq_bind, Option.some_bind] at hchar
      by_cases hmr : mri = AssociatorResult.UNASSIGNED
      · rw [if_neg (fun hne => hne hmr)] at hchar
        simp only [Option.pure_def, Option.some.injEq] at hchar
        rw [hchar]
        exact ⟨rfl, rfl, rfl, rfl⟩
      · rw [if_pos hmr] at hchar
        rcases hroi : rois.rois[mri]? with _ | roi
        · rw [hroi] at hchar
          simp at hchar
        · simp only [hroi, Option.bind_eq_bind, Option.some_bind, Option.pure_def,
            Option.some.injEq] at hchar
          rw [hchar, hcls]
          exact ⟨rfl, rfl, rfl, rfl⟩
  · intro i ha
    have hchar := mapIdxOption_get? _ self.objects objects1 hm i
    rcases hoi : self.objects[i]? with _ | a
    · rw [hoi] at hchar
      simpa [hoi] using hchar
    · rw [hoi] at hchar
      simp only [Option.bind_eq_bind, Option.some_bind, ha] at hchar
      rw [if_neg (fun hne : AssociatorResult.UNASSIGNED ≠ AssociatorResult.UNASSIGNED =>
        hne rfl)] at hchar
      simp only [Option.pure_def] at hchar
      exact hchar

/-- Witness for C9: the matched track keeps its kinematics and staleness, only
its classification becomes the ROI's. -/
theorem C9_witness :
    wSpecCol.ops.updateClassification = SpecTrack.updateClassification ∧
    MultiObjectTracker.updateVision wSpecCol wSpecTracker wRois wTf
      = some wSpecTrackerAfter ∧
    wSpecTrackerAfter.last_update = wSpecTracker.last_update ∧
    wSpecTrackerAfter.objects.length = wSpecTracker.objects.length := by
  have hu : MultiObjectTracker.updateVision wSpecCol wSpecTracker wRois wTf
      = some wSpecTrackerAfter := by decide
  have h := C9_vision_update_changes_only_classification wSpecCol rfl wSpecTracker wRois wTf
    wSpecTrackerAfter hu
  exact ⟨rfl, hu, h.1, h.2.2.1⟩

/-- C10: both update paths index the observation sequences only through the
associator result; under the bounds part of the contract (one assignment entry
per live track, assigned entries valid for the observation sequence, listed
unassigned tracks valid for the track collection) the `none` branch of the
embedded `Option`-returning indexing is unreachable and each call returns
`some`. -/
theorem C10_no_out_of_bounds_indexing
    {T M C : Type} (g : GeomConsts K) (col : Collaborators K T M C)
    (self : MultiObjectTracker K T C) (d : DetectedObjectsMsg K) (o : Odometry K)
    (rois : ClassifiedRoiArrayMsg C) (tf : TransformMsg K) :
    (∀ association : AssociatorResult,
      association = col.assign (MultiObjectTracker.transform self.options.frame d o)
        (self.objects.map (fun object =>
          col.ops.predict object (d.header.stamp - self.last_update))) →
      association.track_assignments.length = self.objects.length →
      (∀ (i : ℕ) (hi : i < association.track_assignments.length),
        association.track_assignments[i] ≠ AssociatorResult.UNASSIGNED →
          association.track_assignments[i] < d.objects.length) →
      (∀ j ∈ association.unassigned_track_indices, j < self.objects.length) →
      (MultiObjectTracker.update g col self d o).isSome) ∧
    (∀ association : AssociatorResult,
      association = col.visionAssign rois self.objects tf →
      association.track_assignments.length = self.objects.length →
      (∀ (i : ℕ) (hi : i < association.track_assignments.length),
        association.track_assignments[i] ≠ AssociatorResult.UNASSIGNED →
          association.track_assignments[i] < rois.rois.length) →
      (MultiObjectTracker.updateVision col self rois tf).isSome) := by
  constructor
  · intro association hassoc hlen hvalid hrange
    by_cases hOk : self.validate g d o = TrackerUpdateStatus.Ok
    · have hdlen : (MultiObjectTracker.transform self.options.frame d o).objects.length
          = d.objects.length := by
        simp [MultiObjectTracker.transform]
      obtain ⟨l2, hl2, _⟩ := stages_some col.ops association
        (MultiObjectTracker.transform self.options.frame d o)
        (self.objects.map (fun object =>
          col.ops.predict object (d.header.stamp - self.last_update)))
        (by simpa using hlen)
        (fun i hi hne => by rw [hdlen]; exact hvalid i hi hne)
        (fun j hj => by simpa using hrange j hj)
      obtain ⟨l1, hA, hB⟩ := Option.bind_eq_some.mp hl2
      rw [hassoc] at hA hB
      simp only [MultiObjectTracker.update, hOk, ne_eq, not_true_eq_false, if_false,
        reduceIte]
      rw [show (MultiObjectTracker.transform self.options.frame d o).header.stamp
        = d.header.stamp from rfl]
      simp [hA, hB]
    · rw [MultiObjectTracker.update_of_validate_ne_ok g col self d o hOk]
      rfl
  · intro association hassoc hlen hvalid
    subst hassoc
    have hsome : (mapIdxOption (fun i object => do
        let maybe_roi_idx ← (col.visionAssign rois self.objects tf).track_assignments[i]?
        if maybe_roi_idx ≠ AssociatorResult.UNASSIGNED then do
          let roi ← rois.rois[maybe_roi_idx]?
          pure (col.ops.updateClassification object roi.classifications)
        else
          pure object) self.objects).isSome := by
      refine mapIdxOption_isSome _ self.objects ?_
      intro i a ha
      have hi : i < self.objects.length := (List.getElem?_eq_some.mp ha).1
      have hia : i < (col.visionAssign rois self.objects tf).track_assignments.length := by
        omega
      have hgi : (col.visionAssign rois self.objects tf).track_assignments[i]? =
          some (col.visionAssign rois self.objects tf).track_assignments[i] :=
        List.getElem?_eq_getElem hia
      by_cases hmr : (col.visionAssign rois self.objects tf).track_assignments[i]
          = AssociatorResult.UNASSIGNED
      · simp [hgi, hmr]
      · have hlt := hvalid i hia hmr
        have hroi : rois.rois[(col.visionAssign rois self.objects tf).track_assignments[i]]?
            = some rois.rois[(col.visionAssign rois self.objects tf).track_assignments[i]] :=
          List.getElem?_eq_getElem hlt
        simp [hgi, hmr, hroi]
    obtain ⟨l1, hm⟩ := Option.isSome_iff_exists.mp hsome
    simp only [MultiObjectTracker.updateVision]
    simp only [Option.bind_eq_bind', Option.pure_def] at hm ⊢
    rw [hm]
    rfl

/-- Witness for C10: both paths return `some` on the two-track fixture. -/
theorem C10_witness :
    (MultiObjectTracker.update wGeom wCol7 wTracker7 wDetBatch wOdom).isSome ∧
    (MultiObjectTracker.updateVision wCol7 wTracker7 wRois wTf).isSome := by
  have h := C10_no_out_of_bounds_indexing wGeom wCol7 wTracker7 wDetBatch wOdom wRois wTf
  constructor
  · exact h.1 wAssoc rfl (by decide) (by decide) (by decide)
  · exact h.2 wAssoc rfl (by decide) (by decide)


/-! ## Real-number analysis of the gravity-alignment check -/

/-- A small rotation angle (`w ≥ cos(kAngleThresh / 2)`) is always accepted. -/
theorem is_gravity_aligned_of_not_lt (q : Quaternion ℝ)
    (hw : ¬ q.w < Real.cos (0.5 * 0.1)) : is_gravity_aligned realGeom q = true := by
  simp only [is_gravity_aligned, realGeom]
  rw [if_neg hw]

/-- A large rotation angle about an axis orthogonal to z (`q.z = 0`) is
rejected. -/
theorem is_gravity_aligned_false_of_z_eq_zero (q : Quaternion ℝ) (hz : q.z = 0)
    (hw : q.w < Real.cos (0.5 * 0.1)) : is_gravity_aligned realGeom q = false := by
  have hcos : (0 : ℝ) < Real.cos 0.1 := by
    apply Real.cos_pos_of_mem_Ioo
    constructor
    · have := Real.pi_gt_three
      linarith
    · have := Real.pi_gt_three
      linarith
  simp only [is_gravity_aligned, realGeom]
  rw [if_pos hw, hz]
  simp only [abs_zero, zero_div]
  rw [if_pos hcos]

/-- A pure yaw rotation (rotation axis the z axis) of any magnitude in the
source's assumed angle range is accepted. -/
theorem is_gravity_aligned_pure_yaw (θ : ℝ) (h1 : -Real.pi ≤ θ) (h2 : θ ≤ Real.pi) :
    is_gravity_aligned realGeom ⟨0, 0, Real.sin (θ / 2), Real.cos (θ / 2)⟩ = true := by
  by_cases hw : Real.cos (θ / 2) < Real.cos (0.5 * 0.1)
  · simp only [is_gravity_aligned, realGeom]
    rw [if_pos hw]
    have hs : Real.sin (θ / 2) ≠ 0 := by
      intro h0
      have hgt : -Real.pi < θ / 2 := by
        have := Real.pi_pos
        linarith
      have hlt : θ / 2 < Real.pi := by
        have := Real.pi_pos
        linarith
      have hθ : θ / 2 = 0 := (Real.sin_eq_zero_iff_of_lt_of_lt hgt hlt).mp h0
      rw [hθ, Real.cos_zero] at hw
      have := Real.cos_le_one (0.5 * 0.1)
      linarith
    have hsum : (0 : ℝ) * 0 + 0 * 0 + Real.sin (θ / 2) * Real.sin (θ / 2)
        = Real.sin (θ / 2) ^ 2 := by ring
    simp only [hsum, Real.sqrt_sq_eq_abs, div_self (abs_ne_zero.mpr hs)]
    rw [if_neg (not_lt.mpr (Real.cos_le_one 0.1))]
  · exact is_gravity_aligned_of_not_lt _ hw

/-- C4: with the source constants over `ℝ`, the gravity-alignment check
accepts every pure yaw rotation (in the assumed range `[-π, π]`); a pure pitch
or pure roll of angle at or below the 0.1 rad threshold is accepted while one
strictly above it (up to `π`) is rejected; and, once the three earlier
validation checks pass, a rejected orientation makes `validate` return
`FrameNotGravityAligned` (which `update` then returns, changing no state). -/
theorem C4_gravity_alignment_yaw_accepted_tilt_boundary :
    (∀ θ : ℝ, -Real.pi ≤ θ → θ ≤ Real.pi →
      is_gravity_aligned realGeom ⟨0, 0, Real.sin (θ / 2), Real.cos (θ / 2)⟩ = true) ∧
    (∀ θ : ℝ, 0 ≤ θ → θ ≤ 0.1 →
      is_gravity_aligned realGeom ⟨0, Real.sin (θ / 2), 0, Real.cos (θ / 2)⟩ = true ∧
      is_gravity_aligned realGeom ⟨Real.sin (θ / 2), 0, 0, Real.cos (θ / 2)⟩ = true) ∧
    (∀ θ : ℝ, 0.1 < θ → θ ≤ Real.pi →
      is_gravity_aligned realGeom ⟨0, Real.sin (θ / 2), 0, Real.cos (θ / 2)⟩ = false ∧
      is_gravity_aligned realGeom ⟨Real.sin (θ / 2), 0, 0, Real.cos (θ / 2)⟩ = false) ∧
    (∀ (T C : Type) (self : MultiObjectTracker ℝ T C) (d : DetectedObjectsMsg ℝ)
        (o : Odometry ℝ),
      ¬ d.header.stamp < self.last_update → d.header.frame_id = o.child_frame_id →
      o.header.frame_id = self.options.frame →
      is_gravity_aligned realGeom o.pose.pose.orientation = false →
      self.validate realGeom d o = TrackerUpdateStatus.FrameNotGravityAligned) := by
  refine ⟨is_gravity_aligned_pure_yaw, ?_, ?_, ?_⟩
  · intro θ h0 h1
    have hw : ¬ Real.cos (θ / 2) < Real.cos (0.5 * 0.1) := by
      apply not_lt.mpr
      apply Real.cos_le_cos_of_nonneg_of_le_pi
      · linarith
      · have := Real.pi_gt_three
        linarith
      · linarith
    exact ⟨is_gravity_aligned_of_not_lt _ hw, is_gravity_aligned_of_not_lt _ hw⟩
  · intro θ h0 h1
    have hw : Real.cos (θ / 2) < Real.cos (0.5 * 0.1) := by
      apply Real.cos_lt_cos_of_nonneg_of_le_pi
      · norm_num
      · have := Real.pi_pos
        linarith
      · linarith
    exact ⟨is_gravity_aligned_false_of_z_eq_zero _ rfl hw,
      is_gravity_aligned_false_of_z_eq_zero _ rfl hw⟩
  · intro T C self d o h1 h2 h3 h4
    rw [MultiObjectTracker.validate_frameNotGravityAligned_iff]
    exact ⟨h1, h2, h3, by simp [h4]⟩

/-- Witness for C4: yaw by π is accepted, pitch by 0.05 is accepted, pitch by
0.2 is rejected. -/
theorem C4_witness :
    (-Real.pi ≤ Real.pi ∧
      is_gravity_aligned realGeom
        ⟨0, 0, Real.sin (Real.pi / 2), Real.cos (Real.pi / 2)⟩ = true) ∧
    ((0 : ℝ) ≤ 0.05 ∧ (0.05 : ℝ) ≤ 0.1 ∧
      is_gravity_aligned realGeom
        ⟨0, Real.sin (0.05 / 2), 0, Real.cos (0.05 / 2)⟩ = true) ∧
    ((0.1 : ℝ) < 0.2 ∧ (0.2 : ℝ) ≤ Real.pi ∧
      is_gravity_aligned realGeom
        ⟨0, Real.sin (0.2 / 2), 0, Real.cos (0.2 / 2)⟩ = false) := by
  have hpi := Real.pi_gt_three
  refine ⟨⟨by linarith, ?_⟩, ⟨by norm_num, by norm_num, ?_⟩, ⟨by norm_num, by linarith, ?_⟩⟩
  · exact C4_gravity_alignment_yaw_accepted_tilt_boundary.1 Real.pi (by linarith) le_rfl
  · exact (C4_gravity_alignment_yaw_accepted_tilt_boundary.2.1 0.05 (by norm_num)
      (by norm_num)).1
  · exact (C4_gravity_alignment_yaw_accepted_tilt_boundary.2.2.1 0.2 (by norm_num)
      (by linarith)).1

end Tracking
